import Mathlib

/-!
Verification of the client-side UI orchestration layer of the
retrospxt-holdings-website repository: the forms pipeline (validation rules,
duplicate-submission guard, submitting UI state), the modal manager, the
mobile-menu controller, the navigation scroll-spy, and the community-join
server endpoint.  Each definition is a shallow embedding of the
corresponding JavaScript function; machine behaviour (DOM attribute writes,
in-memory sets) is modelled as explicit state records.
-/

namespace FormsModule

/-! ### Regex matchers

The validation rules use two regex literals.  They are embedded as
backtracking matchers over the character list: `plusThen cls k` matches
`cls+` followed by the continuation `k` (trying every split, as regex
backtracking does), `repUpTo cls n k` matches `cls{0,n}` then `k`,
`starThen cls k` matches `cls*` then `k`, and `atLeastThen cls n k`
matches `cls{n,}` then `k`. -/

def plusThen (cls : Char → Bool) (k : List Char → Bool) : List Char → Bool
  | [] => false
  | c :: rest => cls c && (k rest || plusThen cls k rest)

def repUpTo (cls : Char → Bool) : Nat → (List Char → Bool) → List Char → Bool
  | 0, k, cs => k cs
  | n + 1, k, cs =>
    k cs ||
      match cs with
      | c :: rest => cls c && repUpTo cls n k rest
      | [] => false

def starThen (cls : Char → Bool) (k : List Char → Bool) : List Char → Bool
  | [] => k []
  | c :: rest => k (c :: rest) || (cls c && starThen cls k rest)

def atLeastThen (cls : Char → Bool) : Nat → (List Char → Bool) → List Char → Bool
  | 0, k, cs => starThen cls k cs
  | n + 1, k, cs =>
    match cs with
    | [] => false
    | c :: rest => cls c && atLeastThen cls n k rest

/-- Character class `[^\s@]` of the email regex. -/
def isEmailChar (c : Char) : Bool := !c.isWhitespace && c != '@'

/-- The email pattern `^[^\s@]+@[^\s@]+\.[^\s@]+$`
(`FormsModule.setupValidationRules`, also used server side). -/
def emailPatternTest (s : String) : Bool :=
  plusThen isEmailChar
    (fun cs => match cs with
      | '@' :: cs2 =>
        plusThen isEmailChar
          (fun cs3 => match cs3 with
            | '.' :: cs4 => plusThen isEmailChar List.isEmpty cs4
            | _ => false) cs2
      | _ => false) s.toList

/-- Character class `[\s\-\(\)]` of the phone regex. -/
def isSepChar (c : Char) : Bool :=
  c.isWhitespace || c == '-' || c == '(' || c == ')'

/-- Character class `[\d\s\-\(\)]` of the phone regex. -/
def isPhoneTailChar (c : Char) : Bool := c.isDigit || isSepChar c

/-- Body of the phone pattern after the optional plus:
`[1-9][\d]{0,2}[\s\-\(\)]*[\d\s\-\(\)]{7,}$`. -/
def phoneBody (cs : List Char) : Bool :=
  match cs with
  | [] => false
  | c :: rest =>
    (decide ('1' ≤ c) && decide (c ≤ '9')) &&
      repUpTo Char.isDigit 2
        (starThen isSepChar (atLeastThen isPhoneTailChar 7 List.isEmpty)) rest

/-- The phone pattern `^[\+]?[1-9][\d]{0,2}[\s\-\(\)]*[\d\s\-\(\)]{7,}$`. -/
def phonePatternTest (s : String) : Bool :=
  (match s.toList with
    | '+' :: rest => phoneBody rest
    | _ => false) || phoneBody s.toList

/-! ### String helpers

`String.split(sep)` (single-character separator), `String.trim()` and the
JS numeric coercion of a rule parameter, implemented over the character
list so that they evaluate by kernel reduction. -/

def splitOnCharAux (sep : Char) : List Char → List Char → List String
  | [], acc => [⟨acc.reverse⟩]
  | c :: rest, acc =>
    if c = sep then ⟨acc.reverse⟩ :: splitOnCharAux sep rest []
    else splitOnCharAux sep rest (c :: acc)

/-- `s.split(sep)` for a one-character separator (so `"".split(sep)` is
`[""]`, and separators at the ends produce empty pieces). -/
def splitOnChar (sep : Char) (s : String) : List String :=
  splitOnCharAux sep s.toList []

/-- `s.trim()`: strip leading and trailing whitespace. -/
def jsTrim (s : String) : String :=
  ⟨((s.toList.dropWhile Char.isWhitespace).reverse.dropWhile
      Char.isWhitespace).reverse⟩

/-- `Number(s)` restricted to the unsigned integers the rule parameters
use: the empty string coerces to `0`, a digit string to its value, and
anything else to NaN (`none`), with which every comparison is false. -/
def jsStringToNat? (s : String) : Option Nat :=
  match s.toList with
  | [] => some 0
  | cs =>
    if cs.all Char.isDigit then
      some (cs.foldl (fun n c => n * 10 + (c.toNat - '0'.toNat)) 0)
    else none

/-! ### Validation rule registry (`setupValidationRules`) -/

/-- One entry of the `validationRules` map: either a `pattern` rule or a
`validate`-function rule (the JS object has exactly one of the two). -/
inductive ValidationRule where
  | pattern (test : String → Bool) (message : String)
  | validator (check : String → Option String → Bool)
      (message : Option String → String)

/-- JS template interpolation of a possibly-undefined rule parameter. -/
def paramText (p : Option String) : String := p.getD "undefined"

/-- Rule `required`: `(value) => value && value.trim().length > 0`. -/
def requiredCheck (value : String) (_ : Option String) : Bool :=
  !value.isEmpty && decide (0 < (jsTrim value).toList.length)

/-- Rule `minLength`: `(value, minLength) => value && value.length >= minLength`
(the parameter is the raw string after `:`; a missing or non-numeric
parameter coerces to NaN, with which the comparison is false). -/
def minLengthCheck (value : String) (p : Option String) : Bool :=
  !value.isEmpty &&
    match p.bind jsStringToNat? with
    | some n => decide (n ≤ value.toList.length)
    | none => false

/-- Rule `maxLength`: `(value, maxLength) => !value || value.length <= maxLength`. -/
def maxLengthCheck (value : String) (p : Option String) : Bool :=
  value.isEmpty ||
    match p.bind jsStringToNat? with
    | some n => decide (value.toList.length ≤ n)
    | none => false

/-- The `validationRules` map built by `setupValidationRules`, as a lookup
by rule name. -/
def validationRules (name : String) : Option ValidationRule :=
  if name == "email" then
    some (.pattern emailPatternTest "Please enter a valid email address")
  else if name == "phone" then
    some (.pattern phonePatternTest "Please enter a valid phone number")
  else if name == "required" then
    some (.validator requiredCheck (fun _ => "This field is required"))
  else if name == "minLength" then
    some (.validator minLengthCheck
      (fun p => "Minimum " ++ paramText p ++ " characters required"))
  else if name == "maxLength" then
    some (.validator maxLengthCheck
      (fun p => "Maximum " ++ paramText p ++ " characters allowed"))
  else none

/-! ### A form input field and `validateField` -/

/-- The observable state of one input element: its `data-validate`
attribute, current value, default value (used by `form.reset()`), the
error CSS class, the inline `.field-error` node (text and visibility),
the `aria-invalid` / `aria-describedby` attributes, and its disabled
flag. -/
structure Field where
  dataValidate : Option String
  value : String
  defaultValue : String
  disabled : Bool
  errorClass : Bool
  errorText : String
  errorVisible : Bool
  ariaInvalid : Option String
  ariaDescribedBy : Bool
deriving DecidableEq, Repr

/-- `showFieldError(input, message)`: adds the error class, writes and
shows the inline error node, and marks the field `aria-invalid`. -/
def showFieldError (f : Field) (message : String) : Field :=
  { f with errorClass := true, errorText := message, errorVisible := true,
           ariaInvalid := some "true", ariaDescribedBy := true }

/-- `clearFieldError(input)`: removes the error class, hides the error
node, sets `aria-invalid="false"` and removes `aria-describedby`. -/
def clearFieldError (f : Field) : Field :=
  { f with errorClass := false, errorVisible := false,
           ariaInvalid := some "false", ariaDescribedBy := false }

/-- `rule.split(':')` destructured as `[ruleName, ruleParam]`. -/
def splitRule (r : String) : String × Option String :=
  match splitOnChar ':' r with
  | [] => (r, none)
  | [n] => (n, none)
  | n :: p :: _ => (n, some p)

/-- Evaluate one registry entry against a value and a raw parameter,
returning validity and the error message (the JS branch on
`validationRule.pattern` vs `validationRule.validate`). -/
def applyRule (rule : ValidationRule) (value : String) (param : Option String) :
    Bool × String :=
  match rule with
  | .pattern test message => (test value, message)
  | .validator check message => (check value param, message param)

/-- The `for (const rule of rules)` loop of `validateField`: unknown rule
names are skipped (`continue`), the first failing rule shows its message
and returns false, and falling through the whole list clears the error
and returns true. -/
def validateFieldGo : List String → Field → Bool × Field
  | [], f => (true, clearFieldError f)
  | r :: rest, f =>
    match validationRules (jsTrim (splitRule r).1) with
    | none => validateFieldGo rest f
    | some rule =>
      let res := applyRule rule f.value (splitRule r).2
      if res.1 then validateFieldGo rest f
      else (false, showFieldError f res.2)

/-- `validateField(input)`: returns true immediately (touching nothing)
when the `data-validate` attribute is absent or empty (JS falsy check),
otherwise runs the comma-separated rule list. -/
def validateField (f : Field) : Bool × Field :=
  match f.dataValidate with
  | none => (true, f)
  | some attr =>
    if attr.isEmpty then (true, f)
    else validateFieldGo (splitOnChar ',' attr) f

/-! ### The form element, the submitting UI state and the submission pipeline -/

/-- The submit button of a form: disabled flag, visible label
(`textContent`), the `data-original-text` attribute, and the
`submitting` CSS class. -/
structure SubmitButton where
  disabled : Bool
  textContent : String
  dataOriginalText : Option String
  submittingClass : Bool
deriving DecidableEq, Repr

/-- The `.form-message` banner element: text, class string, visibility. -/
structure FormMessage where
  text : String
  cls : String
  visible : Bool
deriving DecidableEq, Repr

/-- A form element: its id, its input fields, its submit button (if any),
its `.form-message` banner (if created), whether it lives inside a modal
(`form.closest('.modal')`), and whether a delayed modal close has been
scheduled. -/
structure Form where
  id : String
  fields : List Field
  submitButton : Option SubmitButton
  message : Option FormMessage
  inModal : Bool
  modalCloseScheduled : Bool
deriving DecidableEq, Repr

/-- Module-level state: the `submittingForms` set, plus a log of the
submission calls actually dispatched (one entry per `submitXxxForm`
invocation, recording the form id). -/
structure FormsState where
  submittingForms : List String
  submitCalls : List String
deriving DecidableEq, Repr

/-- Default of `config.showSuccessMessages`. -/
def configShowSuccessMessages : Bool := true

/-- `showFormMessage(form, message, type)`: finds or creates the
`.form-message` element, sets its text, class `form-message <type>`, and
shows it. -/
def showFormMessage (form : Form) (message ty : String) : Form :=
  { form with message := some { text := message, cls := "form-message " ++ ty,
                                visible := true } }

/-- `validateForm(form)`: validates every input, accumulating overall
validity and the updated field states. -/
def validateForm (form : Form) : Bool × Form :=
  let step := form.fields.foldl
    (fun (acc : Bool × List Field) fl =>
      let r := validateField fl
      (acc.1 && r.1, acc.2 ++ [r.2]))
    (true, [])
  (step.1, { form with fields := step.2 })

/-- `setFormSubmitting(form, isSubmitting)`: disables (or re-enables) the
submit button, swaps its label between `'Submitting...'` and the
`data-original-text` attribute (falling back to `'Submit'`), toggles the
`submitting` class, and disables (or re-enables) every other input. -/
def setFormSubmitting (form : Form) (isSubmitting : Bool) : Form :=
  { form with
    submitButton := form.submitButton.map (fun b =>
      { b with
        disabled := isSubmitting
        textContent :=
          if isSubmitting then "Submitting..."
          else b.dataOriginalText.getD "Submit"
        submittingClass := isSubmitting })
    fields := form.fields.map (fun fl => { fl with disabled := isSubmitting }) }

/-- `error.message || 'An error occurred. Please try again.'` in
`handleFormError` (a missing or empty message is falsy). -/
def errorBannerText (errMessage : Option String) : String :=
  match errMessage with
  | some m => if m.isEmpty then "An error occurred. Please try again." else m
  | none => "An error occurred. Please try again."

/-- `handleFormError(form, error)`: shows the error banner; field values
are untouched. -/
def handleFormError (form : Form) (errMessage : Option String) : Form :=
  showFormMessage form (errorBannerText errMessage) "error"

/-- `handleFormSuccess(form, result)`: shows the success banner, resets
the form (values back to defaults), hides inline errors and removes the
error class, and schedules the enclosing modal to close when the form is
inside one. -/
def handleFormSuccess (form : Form) (resultMessage : String) : Form :=
  let f1 := if configShowSuccessMessages then
      showFormMessage form resultMessage "success"
    else form
  { f1 with
    fields := f1.fields.map (fun fl =>
      { fl with value := fl.defaultValue, errorVisible := false,
                errorClass := false })
    modalCloseScheduled := f1.modalCloseScheduled || f1.inModal }

/-- How the dispatched submission settles: the promise resolves with a
`{success, message}` result, or rejects with an error whose `message`
property may be missing or empty. -/
inductive SubmitOutcome where
  | ok (message : String)
  | err (message : Option String)
deriving DecidableEq, Repr

/-- Outcome of the synchronous prefix of `handleFormSubmit`, up to (and
including) dispatching the submission call. -/
inductive SubmitStart where
  | duplicate (st : FormsState) (form : Form)
  | invalid (st : FormsState) (form : Form)
  | started (st : FormsState) (form : Form)
deriving DecidableEq, Repr

/-- The synchronous prefix of `handleFormSubmit(event)`: the
duplicate-submission guard (early return, touching nothing), form
validation (early return with an error banner), then marking the form as
submitting, switching the submitting UI on, and dispatching the
submission call (logged in `submitCalls`). -/
def handleFormSubmitStart (st : FormsState) (form : Form) : SubmitStart :=
  if form.id ∈ st.submittingForms then .duplicate st form
  else
    let v := validateForm form
    if !v.1 then
      .invalid st (showFormMessage v.2 "Please correct the errors below" "error")
    else
      .started
        { st with submittingForms := form.id :: st.submittingForms,
                  submitCalls := st.submitCalls ++ [form.id] }
        (setFormSubmitting v.2 true)

/-- The continuation of `handleFormSubmit` once the submission promise
settles: `handleFormSuccess` / `handleFormError` (catch), then the
`finally` block removing the form from `submittingForms` and switching
the submitting UI off. -/
def handleFormSubmitSettle (st : FormsState) (form : Form)
    (outcome : SubmitOutcome) : FormsState × Form :=
  let f1 := match outcome with
    | .ok message => handleFormSuccess form message
    | .err message => handleFormError form message
  ({ st with submittingForms := st.submittingForms.erase form.id },
   setFormSubmitting f1 false)

/-- A whole run of `handleFormSubmit`, parameterised by how the
submission call settles. -/
def handleFormSubmit (st : FormsState) (form : Form)
    (outcome : SubmitOutcome) : FormsState × Form :=
  match handleFormSubmitStart st form with
  | .duplicate st1 f1 => (st1, f1)
  | .invalid st1 f1 => (st1, f1)
  | .started st1 f1 => handleFormSubmitSettle st1 f1 outcome

end FormsModule

namespace Server

/-- The parsed JSON body of a `POST /api/community-join` request.  A
field is `none` when absent; `jsTruthy` reproduces the JS falsy check
`!formData.x` (absent or empty string). -/
structure CommunityJoinReq where
  name : Option String
  email : Option String
  aiExperience : Option String
  company : Option String
  businessSize : Option String
  newsletterOptIn : Option String
deriving DecidableEq, Repr

def jsTruthy (o : Option String) : Bool :=
  match o with
  | none => false
  | some s => !s.isEmpty

/-- An HTTP response as the handler produces it: status code, `success`
flag and `message` of the JSON body. -/
structure ApiResponse where
  status : Nat
  success : Bool
  message : String
deriving DecidableEq, Repr

/-- The `POST /api/community-join` handler: required-field check, the
server-side email regex check, the transporter-configured check, then the
send (whose success is the `sendOk` parameter; a rejected `sendMail` is
caught and answered with 500). -/
def communityJoinHandler (req : CommunityJoinReq)
    (emailConfigured sendOk : Bool) : ApiResponse :=
  if !jsTruthy req.name || !jsTruthy req.email || !jsTruthy req.aiExperience then
    { status := 400, success := false,
      message := "Missing required fields: name, email, and AI experience level are required." }
  else if !FormsModule.emailPatternTest ((req.email).getD "") then
    { status := 400, success := false,
      message := "Please provide a valid email address." }
  else if !emailConfigured then
    { status := 500, success := false,
      message := "Email service is not configured. Please contact support." }
  else if sendOk then
    { status := 200, success := true,
      message := "Thank you for joining our community! We\x27ll be in touch soon." }
  else
    { status := 500, success := false,
      message := "There was an error processing your request. Please try again later." }

end Server

namespace ModalsModule

/-- A focusable page element: an arbitrary DOM node, or a modal container
element (`document.getElementById(modalId)`). -/
inductive Elem where
  | node (n : Nat)
  | modalElem (id : String)
deriving DecidableEq, Repr

/-- State of the modal manager together with the modal DOM attributes it
drives: the modals present in the document, their `aria-hidden`
attributes (`true` means hidden), the manager's `activeModal` /
`previousFocus` / `isAnimating` fields, and `document.activeElement`. -/
structure ModalState where
  modalIds : List String
  ariaHidden : String → Bool
  activeModal : Option String
  previousFocus : Option Elem
  isAnimating : Bool
  focused : Elem

/-- The sequence of states `close()` passes through: the guard (no-op
when nothing is active or mid-animation), setting `isAnimating`, the
animate-out plus `cleanupModal` (which writes `aria-hidden="true"`),
restoring `previousFocus` (when recorded), and resetting the manager
state. -/
def closeTrace (s : ModalState) : List ModalState :=
  match s.activeModal, s.isAnimating with
  | none, _ => [s]
  | some _, true => [s]
  | some m, false =>
    let s1 : ModalState := { s with isAnimating := true }
    let s2 : ModalState :=
      { s1 with ariaHidden := fun x => if x = m then true else s1.ariaHidden x }
    let s3 : ModalState := { s2 with focused := s2.previousFocus.getD s2.focused }
    let s4 : ModalState :=
      { s3 with activeModal := none, previousFocus := none, isAnimating := false }
    [s, s1, s2, s3, s4]

/-- The state after `close()` completes. -/
def closeRun (s : ModalState) : ModalState := (closeTrace s).getLastD s

/-- The sequence of states `open(modalId)` passes through: the
`isAnimating` guard, the missing-modal guard, awaiting `close()` of any
active modal (its full trace), then recording `previousFocus :=
document.activeElement`, animating in, writing `aria-hidden="false"`,
and focusing the modal element. -/
def openTrace (s : ModalState) (modalId : String) : List ModalState :=
  if s.isAnimating then [s]
  else if modalId ∉ s.modalIds then [s]
  else
    let ct := match s.activeModal with
      | some _ => closeTrace s
      | none => [s]
    let s0 := ct.getLastD s
    let s1 : ModalState :=
      { s0 with isAnimating := true, activeModal := some modalId,
                previousFocus := some s0.focused }
    let s2 : ModalState :=
      { s1 with ariaHidden := fun x => if x = modalId then false else s1.ariaHidden x }
    let s3 : ModalState := { s2 with focused := Elem.modalElem modalId }
    let s4 : ModalState := { s3 with isAnimating := false }
    ct ++ [s1, s2, s3, s4]

/-- The state after `open(modalId)` completes. -/
def openRun (s : ModalState) (modalId : String) : ModalState :=
  (openTrace s modalId).getLastD s

/-- No two distinct modals in the document carry `aria-hidden="false"`. -/
def atMostOneVisible (s : ModalState) : Prop :=
  ∀ x ∈ s.modalIds, ∀ y ∈ s.modalIds,
    s.ariaHidden x = false → s.ariaHidden y = false → x = y

/-- Manager invariant: only the modal recorded in `activeModal` may be
visible (established by `setupAccessibility`, which hides every modal). -/
def ModalInv (s : ModalState) : Prop :=
  ∀ x ∈ s.modalIds, s.ariaHidden x = false → s.activeModal = some x

instance (s : ModalState) : Decidable (atMostOneVisible s) := by
  unfold atMostOneVisible
  infer_instance

instance (s : ModalState) : Decidable (ModalInv s) := by
  unfold ModalInv
  infer_instance

end ModalsModule

namespace MobileMenuModule

/-- State of the mobile-menu controller together with the DOM state it
drives (hamburger class, overlay, body scroll lock, ARIA attributes). -/
structure MenuState where
  isOpen : Bool
  isAnimating : Bool
  isMobile : Bool
  appMenuOpen : Bool
  menuDisplayed : Bool
  hamburgerActive : Bool
  bodyScrollLocked : Bool
  overlayPresent : Bool
  ariaExpanded : Bool
  navAriaHidden : Bool
deriving DecidableEq, Repr

/-- The synchronous prefix of `open()`: the guard (no-op when already
open, animating, or not mobile), setting the animating/open flags, the
app state, and `prepareMenuOpen` (display, hamburger class, body scroll
lock, overlay) — everything before `await this.animateMenuIn()`. -/
def openStart (s : MenuState) : MenuState :=
  if s.isOpen || s.isAnimating || !s.isMobile then s
  else
    { s with isAnimating := true, isOpen := true, appMenuOpen := true,
             menuDisplayed := true, hamburgerActive := true,
             bodyScrollLocked := true, overlayPresent := true }

/-- The continuation of `open()` after the animation completes: focus
management, ARIA updates, clearing `isAnimating`. -/
def openFinish (s : MenuState) : MenuState :=
  { s with ariaExpanded := true, navAriaHidden := false, isAnimating := false }

/-- The synchronous prefix of `close()`: the guard (no-op when already
closed or animating), then setting the animating/closed flags and the
app state — everything before the awaited animate-out. -/
def closeStart (s : MenuState) : MenuState :=
  if !s.isOpen || s.isAnimating then s
  else { s with isAnimating := true, isOpen := false, appMenuOpen := false }

/-- The continuation of `close()`: `cleanupMenuClose`, ARIA updates,
clearing `isAnimating`. -/
def closeFinish (s : MenuState) : MenuState :=
  { s with menuDisplayed := false, hamburgerActive := false,
           bodyScrollLocked := false, overlayPresent := false,
           ariaExpanded := false, navAriaHidden := true,
           isAnimating := false }

/-- `toggle()`: dispatches on `isOpen`. -/
def toggleStart (s : MenuState) : MenuState :=
  if s.isOpen then closeStart s else openStart s

end MobileMenuModule

namespace NavigationModule

/-- A `section[id]` element: id, `offsetTop`, `offsetHeight`. -/
structure PageSection where
  id : String
  offsetTop : Nat
  offsetHeight : Nat
deriving DecidableEq, Repr

/-- A `.nav-link` element: `href`, the `active` CSS class, and the
`aria-current` attribute. -/
structure NavLink where
  href : String
  activeClass : Bool
  ariaCurrent : Option String
deriving DecidableEq, Repr

/-- Navigation state: the configured `sectionOffset`, the module's
`activeSection`, and the cached section and nav-link elements. -/
structure NavState where
  sectionOffset : Nat
  activeSection : String
  sections : List PageSection
  navLinks : List NavLink
deriving DecidableEq, Repr

/-- `setActiveNavLink(activeId)`: toggles the `active` class on every nav
link by comparing its `href` to `activeId`, and sets `aria-current` to
`'page'` or `'false'` in lock-step. -/
def setActiveNavLink (links : List NavLink) (activeId : String) : List NavLink :=
  links.map fun l =>
    { l with activeClass := l.href == activeId,
             ariaCurrent := some (if l.href == activeId then "page" else "false") }

/-- The band test `scrollPos >= sectionTop && scrollPos < sectionTop + sectionHeight`. -/
def sectionContains (sec : PageSection) (pos : Nat) : Bool :=
  decide (sec.offsetTop ≤ pos) && decide (pos < sec.offsetTop + sec.offsetHeight)

/-- The `sections.forEach` scan of `updateActiveSection`: the last
section whose band contains the probe wins, defaulting to `'home'`. -/
def scanActive (sections : List PageSection) (pos : Nat) : String :=
  sections.foldl (fun acc sec => if sectionContains sec pos then sec.id else acc)
    "home"

/-- `updateActiveSection()`: computes the probe
`scrollY + sectionOffset + 50`, scans the sections, and when the result
differs from the stored `activeSection` updates it and re-renders the
nav links via `setActiveNavLink`. -/
def updateActiveSection (s : NavState) (scrollY : Nat) : NavState :=
  let scrollPos := scrollY + s.sectionOffset + 50
  let active := scanActive s.sections scrollPos
  if active ≠ s.activeSection then
    { s with activeSection := active,
             navLinks := setActiveNavLink s.navLinks ("#" ++ active) }
  else s

/-- The nav-link display agrees with the stored `activeSection` (what
`setActiveNavLink` establishes and the scroll-spy maintains). -/
def linksConsistent (s : NavState) : Prop :=
  ∀ l ∈ s.navLinks,
    l.activeClass = (l.href == "#" ++ s.activeSection) ∧
    l.ariaCurrent = some (if l.href == "#" ++ s.activeSection then "page" else "false")

instance (s : NavState) : Decidable (linksConsistent s) := by
  unfold linksConsistent
  infer_instance

end NavigationModule

/-! ## Concrete states for witnesses and counterexamples -/

/-- An open, idle, mobile menu state. -/
def menuOpenW : MobileMenuModule.MenuState :=
  { isOpen := true, isAnimating := false, isMobile := true, appMenuOpen := true,
    menuDisplayed := true, hamburgerActive := true, bodyScrollLocked := true,
    overlayPresent := true, ariaExpanded := true, navAriaHidden := false }

/-- A closed, idle, mobile menu state. -/
def menuClosedW : MobileMenuModule.MenuState :=
  { isOpen := false, isAnimating := false, isMobile := true, appMenuOpen := false,
    menuDisplayed := false, hamburgerActive := false, bodyScrollLocked := false,
    overlayPresent := false, ariaExpanded := false, navAriaHidden := true }

/-- A submit button whose visible label is not stored in
`data-original-text`. -/
def joinNowButton : FormsModule.SubmitButton :=
  { disabled := false, textContent := "Join Now", dataOriginalText := none,
    submittingClass := false }

/-- A form carrying `joinNowButton`. -/
def joinNowForm : FormsModule.Form :=
  { id := "community-form", fields := [], submitButton := some joinNowButton,
    message := none, inModal := false, modalCloseScheduled := false }

/-- Witness for C9 at a concrete form whose button stores its label in
`data-original-text`. -/
def newsletterButton : FormsModule.SubmitButton :=
  { disabled := false, textContent := "Subscribe",
    dataOriginalText := some "Subscribe", submittingClass := false }

/-- A form carrying `newsletterButton` and one enabled input. -/
def newsletterFormW : FormsModule.Form :=
  { id := "newsletter-form",
    fields := [{ dataValidate := some "required,email", value := "a@b.co",
                 defaultValue := "", disabled := false, errorClass := false,
                 errorText := "", errorVisible := false, ariaInvalid := none,
                 ariaDescribedBy := false }],
    submitButton := some newsletterButton, message := none, inModal := true,
    modalCloseScheduled := false }

/-- A `required,email` field holding an invalid value. -/
def emailFieldBadW : FormsModule.Field :=
  { dataValidate := some "required,email", value := "not-an-email",
    defaultValue := "", disabled := false, errorClass := false, errorText := "",
    errorVisible := false, ariaInvalid := none, ariaDescribedBy := false }

/-- A `required,email` field holding a valid value and a stale inline error. -/
def emailFieldGoodW : FormsModule.Field :=
  { dataValidate := some "required,email", value := "a@b.co",
    defaultValue := "", disabled := false, errorClass := true,
    errorText := "Please enter a valid email address", errorVisible := true,
    ariaInvalid := some "true", ariaDescribedBy := true }

/-- A field whose rule list only holds misspelled rule names. -/
def misspelledFieldW : FormsModule.Field :=
  { dataValidate := some "reqired,emial", value := "", defaultValue := "",
    disabled := false, errorClass := false, errorText := "",
    errorVisible := false, ariaInvalid := none, ariaDescribedBy := false }

/-- A field with no `data-validate` attribute. -/
def unvalidatedFieldW : FormsModule.Field :=
  { dataValidate := none, value := "whatever", defaultValue := "",
    disabled := false, errorClass := false, errorText := "",
    errorVisible := false, ariaInvalid := none, ariaDescribedBy := false }

/-- A valid community form (one passing field) for the C2/C7 witnesses. -/
def communityFormW : FormsModule.Form :=
  { id := "community-form",
    fields := [{ dataValidate := some "required,email", value := "test@example.com",
                 defaultValue := "", disabled := false, errorClass := false,
                 errorText := "", errorVisible := false, ariaInvalid := none,
                 ariaDescribedBy := false }],
    submitButton := some joinNowButton, message := none, inModal := true,
    modalCloseScheduled := false }

/-- A forms-module state with nothing in flight. -/
def formsStateW : FormsModule.FormsState :=
  { submittingForms := [], submitCalls := [] }

/-- A community-join request with the required `aiExperience` missing. -/
def reqMissingW : Server.CommunityJoinReq :=
  { name := some "Test User", email := some "test@example.com",
    aiExperience := none, company := none, businessSize := none,
    newsletterOptIn := none }

/-- A complete community-join request. -/
def reqCompleteW : Server.CommunityJoinReq :=
  { name := some "Test User", email := some "test@example.com",
    aiExperience := some "beginner", company := some "Acme",
    businessSize := some "small", newsletterOptIn := some "true" }

/-- A consistent navigation state over the home and about sections, with
the module defaults (`sectionOffset = 80`, active section `home`). -/
def navStateW : NavigationModule.NavState :=
  { sectionOffset := 80, activeSection := "home",
    sections := [{ id := "home", offsetTop := 0, offsetHeight := 200 },
                 { id := "about", offsetTop := 200, offsetHeight := 200 }],
    navLinks := [{ href := "#home", activeClass := true, ariaCurrent := some "page" },
                 { href := "#about", activeClass := false, ariaCurrent := some "false" }] }

/-- A document with two hidden modals and focus on an ordinary node. -/
def cleanModalState : ModalsModule.ModalState :=
  { modalIds := ["newsletter-modal", "community-modal"],
    ariaHidden := fun _ => true, activeModal := none, previousFocus := none,
    isAnimating := false, focused := ModalsModule.Elem.node 5 }

/-- The state after opening the newsletter modal from the clean document:
it is active, visible, and the manager is idle. -/
def modalW : ModalsModule.ModalState :=
  ModalsModule.openRun cleanModalState "newsletter-modal"

/-! ## Claim theorems -/

/-- Claim C8: mobile-menu re-entrancy.  `open()` is a no-op when the menu
is already open, animating, or not in mobile mode; `close()` is a no-op
when already closed or animating; and for two `toggle()` calls in
succession before any animation completes, the first leaves
`isAnimating = true` and the second is a no-op. -/
theorem mobileMenu_reentrancy :
    (∀ s : MobileMenuModule.MenuState,
      s.isOpen = true ∨ s.isAnimating = true ∨ s.isMobile = false →
      MobileMenuModule.openStart s = s) ∧
    (∀ s : MobileMenuModule.MenuState,
      s.isOpen = false ∨ s.isAnimating = true →
      MobileMenuModule.closeStart s = s) ∧
    (∀ s : MobileMenuModule.MenuState,
      s.isOpen = false → s.isAnimating = false → s.isMobile = true →
      (MobileMenuModule.toggleStart s).isAnimating = true ∧
      (MobileMenuModule.toggleStart s).isOpen = true ∧
      MobileMenuModule.toggleStart (MobileMenuModule.toggleStart s) =
        MobileMenuModule.toggleStart s) := by
  refine ⟨?_, ?_, ?_⟩
  · intro s h
    rcases h with h | h | h <;> simp [MobileMenuModule.openStart, h]
  · intro s h
    rcases h with h | h <;> simp [MobileMenuModule.closeStart, h]
  · intro s h1 h2 h3
    simp [MobileMenuModule.toggleStart, MobileMenuModule.openStart,
          MobileMenuModule.closeStart, h1, h2, h3]

/-- Witness for C8 at concrete menu states. -/
theorem mobileMenu_reentrancy_witness :
    MobileMenuModule.openStart menuOpenW = menuOpenW ∧
    MobileMenuModule.closeStart menuClosedW = menuClosedW ∧
    (MobileMenuModule.toggleStart menuClosedW).isAnimating = true ∧
    MobileMenuModule.toggleStart (MobileMenuModule.toggleStart menuClosedW) =
      MobileMenuModule.toggleStart menuClosedW :=
  ⟨mobileMenu_reentrancy.1 menuOpenW (Or.inl rfl),
   mobileMenu_reentrancy.2.1 menuClosedW (Or.inl rfl),
   (mobileMenu_reentrancy.2.2 menuClosedW rfl rfl rfl).1,
   (mobileMenu_reentrancy.2.2 menuClosedW rfl rfl rfl).2.2⟩

/-- Claim C9 (amended): while a submission is in flight the submit button
and every other input are disabled and the button label reads
`'Submitting...'`; after the submitting state is cleared everything is
re-enabled and the label is set to the button's `data-original-text`
attribute (falling back to `'Submit'`) — which equals the pre-submission
label exactly when that attribute stores it. -/
theorem setFormSubmitting_lifecycle (form : FormsModule.Form)
    (b : FormsModule.SubmitButton) (hb : form.submitButton = some b) :
    ((FormsModule.setFormSubmitting form true).submitButton =
      some { b with
             disabled := true, textContent := "Submitting...",
             submittingClass := true }) ∧
    (∀ fl ∈ (FormsModule.setFormSubmitting form true).fields, fl.disabled = true) ∧
    ((FormsModule.setFormSubmitting
        (FormsModule.setFormSubmitting form true) false).submitButton =
      some { b with
             disabled := false,
             textContent := b.dataOriginalText.getD "Submit",
             submittingClass := false }) ∧
    (∀ fl ∈ (FormsModule.setFormSubmitting
        (FormsModule.setFormSubmitting form true) false).fields,
      fl.disabled = false) ∧
    (b.dataOriginalText = some b.textContent →
      (FormsModule.setFormSubmitting
          (FormsModule.setFormSubmitting form true) false).submitButton =
        some { b with disabled := false, submittingClass := false }) := by
  refine ⟨?_, ?_, ?_, ?_, ?_⟩
  · simp [FormsModule.setFormSubmitting, hb]
  · intro fl hfl
    simp only [FormsModule.setFormSubmitting, List.mem_map] at hfl
    obtain ⟨x, _, rfl⟩ := hfl
    rfl
  · simp [FormsModule.setFormSubmitting, hb]
  · intro fl hfl
    simp only [FormsModule.setFormSubmitting, List.map_map, List.mem_map] at hfl
    obtain ⟨x, _, rfl⟩ := hfl
    rfl
  · intro h
    simp [FormsModule.setFormSubmitting, hb, h]

/-- Counterexample to C9 as stated: entering then leaving the submitting
state is not an identity on the button label — a button labelled
`"Join Now"` without a `data-original-text` attribute comes back labelled
`"Submit"`. -/
theorem setFormSubmitting_restore_cex :
    (FormsModule.setFormSubmitting
        (FormsModule.setFormSubmitting joinNowForm true) false).submitButton =
      some { disabled := false, textContent := "Submit", dataOriginalText := none,
             submittingClass := false } ∧
    joinNowButton.textContent = "Join Now" ∧ ("Submit" : String) ≠ "Join Now" := by
  refine ⟨rfl, rfl, by decide⟩

/-- Witness for the amended C9 at `newsletterFormW`. -/
theorem setFormSubmitting_lifecycle_witness :
    ((FormsModule.setFormSubmitting newsletterFormW true).submitButton =
      some { newsletterButton with
             disabled := true, textContent := "Submitting...",
             submittingClass := true }) ∧
    (∀ fl ∈ (FormsModule.setFormSubmitting newsletterFormW true).fields,
      fl.disabled = true) ∧
    ((FormsModule.setFormSubmitting
        (FormsModule.setFormSubmitting newsletterFormW true) false).submitButton =
      some { newsletterButton with
             disabled := false,
             textContent := newsletterButton.dataOriginalText.getD "Submit",
             submittingClass := false }) ∧
    (FormsModule.setFormSubmitting
        (FormsModule.setFormSubmitting newsletterFormW true) false).submitButton =
      some { newsletterButton with disabled := false, submittingClass := false } :=
  ⟨(setFormSubmitting_lifecycle newsletterFormW newsletterButton rfl).1,
   (setFormSubmitting_lifecycle newsletterFormW newsletterButton rfl).2.1,
   (setFormSubmitting_lifecycle newsletterFormW newsletterButton rfl).2.2.1,
   (setFormSubmitting_lifecycle newsletterFormW newsletterButton rfl).2.2.2.2 rfl⟩

/-- Claim C6: the community-join endpoint answers 400 with
`success:false` whenever a required field is missing (JS-falsy: absent or
empty) or the email fails the server-side regex; with all required fields
present, a passing email and email configured, it never answers 400. -/
theorem communityJoin_validation (req : Server.CommunityJoinReq)
    (emailConfigured sendOk : Bool) :
    ((Server.jsTruthy req.name = false ∨ Server.jsTruthy req.email = false ∨
        Server.jsTruthy req.aiExperience = false ∨
        FormsModule.emailPatternTest ((req.email).getD "") = false) →
      (Server.communityJoinHandler req emailConfigured sendOk).status = 400 ∧
      (Server.communityJoinHandler req emailConfigured sendOk).success = false) ∧
    ((Server.jsTruthy req.name = true ∧ Server.jsTruthy req.email = true ∧
        Server.jsTruthy req.aiExperience = true ∧
        FormsModule.emailPatternTest ((req.email).getD "") = true ∧
        emailConfigured = true) →
      (Server.communityJoinHandler req emailConfigured sendOk).status ≠ 400) := by
  constructor
  · intro h
    rcases h with h | h | h | h
    · simp [Server.communityJoinHandler, h]
    · simp [Server.communityJoinHandler, h]
    · simp [Server.communityJoinHandler, h]
    · by_cases h1 : Server.jsTruthy req.name = false
      · simp [Server.communityJoinHandler, h1]
      · by_cases h2 : Server.jsTruthy req.email = false
        · simp [Server.communityJoinHandler, h2]
        · by_cases h3 : Server.jsTruthy req.aiExperience = false
          · simp [Server.communityJoinHandler, h3]
          · rw [Bool.not_eq_false] at h1 h2 h3
            simp [Server.communityJoinHandler, h1, h2, h3, h]
  · rintro ⟨h1, h2, h3, h4, h5⟩
    cases sendOk <;> simp [Server.communityJoinHandler, h1, h2, h3, h4, h5]

/-- Witness for C6 at concrete requests. -/
theorem communityJoin_validation_witness :
    ((Server.communityJoinHandler reqMissingW true true).status = 400 ∧
      (Server.communityJoinHandler reqMissingW true true).success = false) ∧
    (Server.communityJoinHandler reqCompleteW true true).status ≠ 400 :=
  ⟨(communityJoin_validation reqMissingW true true).1
      (Or.inr (Or.inr (Or.inl (by decide)))),
   (communityJoin_validation reqCompleteW true true).2
      ⟨by decide, by decide, by decide, by decide, rfl⟩⟩

/-- Claim C5: on a `required,email` field, `validateField` fails the
value `"not-an-email"` showing exactly
`"Please enter a valid email address"`, and passes the value `"a@b.co"`,
clearing any inline error (error node hidden, error class removed,
`aria-invalid="false"`). -/
theorem validateField_required_email (f g : FormsModule.Field)
    (hfv : f.dataValidate = some "required,email") (hf : f.value = "not-an-email")
    (hgv : g.dataValidate = some "required,email") (hg : g.value = "a@b.co") :
    (FormsModule.validateField f).1 = false ∧
    (FormsModule.validateField f).2.errorText = "Please enter a valid email address" ∧
    (FormsModule.validateField f).2.errorVisible = true ∧
    (FormsModule.validateField g).1 = true ∧
    (FormsModule.validateField g).2.errorVisible = false ∧
    (FormsModule.validateField g).2.errorClass = false ∧
    (FormsModule.validateField g).2.ariaInvalid = some "false" := by
  obtain ⟨dv, v, a1, a2, a3, a4, a5, a6, a7⟩ := f
  obtain ⟨dw, w, b1, b2, b3, b4, b5, b6, b7⟩ := g
  replace hfv : dv = some "required,email" := hfv
  replace hf : v = "not-an-email" := hf
  replace hgv : dw = some "required,email" := hgv
  replace hg : w = "a@b.co" := hg
  subst hfv hf hgv hg
  exact ⟨rfl, rfl, rfl, rfl, rfl, rfl, rfl⟩

/-- Witness for C5 at the two concrete fields. -/
theorem validateField_required_email_witness :
    (FormsModule.validateField emailFieldBadW).1 = false ∧
    (FormsModule.validateField emailFieldBadW).2.errorText =
      "Please enter a valid email address" ∧
    (FormsModule.validateField emailFieldBadW).2.errorVisible = true ∧
    (FormsModule.validateField emailFieldGoodW).1 = true ∧
    (FormsModule.validateField emailFieldGoodW).2.errorVisible = false ∧
    (FormsModule.validateField emailFieldGoodW).2.errorClass = false ∧
    (FormsModule.validateField emailFieldGoodW).2.ariaInvalid = some "false" :=
  validateField_required_email emailFieldBadW emailFieldGoodW rfl rfl rfl rfl

/-- Every rule name in `l` misses the registry. -/
theorem validateFieldGo_all_unknown (l : List String) (f : FormsModule.Field)
    (h : ∀ r ∈ l,
      (FormsModule.validationRules (FormsModule.jsTrim (FormsModule.splitRule r).1)).isNone = true) :
    FormsModule.validateFieldGo l f = (true, FormsModule.clearFieldError f) := by
  induction l with
  | nil => rfl
  | cons r rest ih =>
    have hr : FormsModule.validationRules (FormsModule.jsTrim (FormsModule.splitRule r).1) = none :=
      Option.isNone_iff_eq_none.mp (h r (List.mem_cons_self r rest))
    have hrest := fun x hx => h x (List.mem_cons_of_mem r hx)
    simp [FormsModule.validateFieldGo, hr, ih hrest]

/-- Claim C10: rule names missing from the registry are silently skipped,
so a field whose rule list contains only unrecognized names always
validates successfully, whatever its value; a field with no
`data-validate` attribute validates to true untouched. -/
theorem validateField_unknown_rules (f g : FormsModule.Field) (attr : String)
    (hattr : f.dataValidate = some attr) (hne : attr.isEmpty = false)
    (hall : ∀ r ∈ FormsModule.splitOnChar ',' attr,
      (FormsModule.validationRules (FormsModule.jsTrim (FormsModule.splitRule r).1)).isNone = true)
    (hgv : g.dataValidate = none) :
    (FormsModule.validateField f).1 = true ∧
    FormsModule.validateField g = (true, g) := by
  constructor
  · simp [FormsModule.validateField, hattr, hne,
          validateFieldGo_all_unknown (FormsModule.splitOnChar ',' attr) f hall]
  · simp [FormsModule.validateField, hgv]

/-- Witness for C10 at the two concrete fields. -/
theorem validateField_unknown_rules_witness :
    (FormsModule.validateField misspelledFieldW).1 = true ∧
    FormsModule.validateField unvalidatedFieldW = (true, unvalidatedFieldW) :=
  validateField_unknown_rules misspelledFieldW unvalidatedFieldW "reqired,emial"
    rfl rfl (by decide) rfl

/-- Claim C2: while a form id is in `submittingForms`, a further submit
of the same id is a silent no-op; a fresh valid submission dispatches
exactly one call and registers the id; settling (success or error)
removes the id again. -/
theorem forms_duplicate_submission (st : FormsModule.FormsState)
    (form : FormsModule.Form)
    (hnot : form.id ∉ st.submittingForms)
    (hvalid : (FormsModule.validateForm form).1 = true) :
    ∃ st1 f1, FormsModule.handleFormSubmitStart st form = .started st1 f1 ∧
      st1.submitCalls = st.submitCalls ++ [form.id] ∧
      form.id ∈ st1.submittingForms ∧
      (∀ g : FormsModule.Form, ∀ outcome, g.id = form.id →
        FormsModule.handleFormSubmit st1 g outcome = (st1, g)) ∧
      (∀ outcome,
        form.id ∉ (FormsModule.handleFormSubmitSettle st1 f1 outcome).1.submittingForms) := by
  have hstart : FormsModule.handleFormSubmitStart st form =
      .started
        { st with submittingForms := form.id :: st.submittingForms,
                  submitCalls := st.submitCalls ++ [form.id] }
        (FormsModule.setFormSubmitting (FormsModule.validateForm form).2 true) := by
    simp [FormsModule.handleFormSubmitStart, hnot, hvalid]
  refine ⟨_, _, hstart, rfl, List.mem_cons_self _ _, ?_, ?_⟩
  · intro g outcome hg
    have hmem : g.id ∈ form.id :: st.submittingForms := by
      rw [hg]; exact List.mem_cons_self _ _
    simp [FormsModule.handleFormSubmit, FormsModule.handleFormSubmitStart, hmem]
  · intro outcome
    have hid : (FormsModule.setFormSubmitting
        (FormsModule.validateForm form).2 true).id = form.id := rfl
    simp only [FormsModule.handleFormSubmitSettle, hid]
    rw [List.erase_cons_head]
    exact hnot

/-- Witness for C2 at `communityFormW`. -/
theorem forms_duplicate_submission_witness :
    ∃ st1 f1,
      FormsModule.handleFormSubmitStart formsStateW communityFormW = .started st1 f1 ∧
      st1.submitCalls = formsStateW.submitCalls ++ [communityFormW.id] ∧
      communityFormW.id ∈ st1.submittingForms ∧
      (∀ g : FormsModule.Form, ∀ outcome, g.id = communityFormW.id →
        FormsModule.handleFormSubmit st1 g outcome = (st1, g)) ∧
      (∀ outcome, communityFormW.id ∉
        (FormsModule.handleFormSubmitSettle st1 f1 outcome).1.submittingForms) :=
  forms_duplicate_submission formsStateW communityFormW (by decide) (by decide)

/-- The loop of `validateField` never changes the field value. -/
theorem validateFieldGo_value (l : List String) (f : FormsModule.Field) :
    (FormsModule.validateFieldGo l f).2.value = f.value := by
  induction l generalizing f with
  | nil => rfl
  | cons r rest ih =>
    rw [FormsModule.validateFieldGo]
    rcases FormsModule.validationRules (FormsModule.jsTrim (FormsModule.splitRule r).1) with
      _ | rule
    · exact ih f
    · by_cases hr : (FormsModule.applyRule rule f.value (FormsModule.splitRule r).2).1 = true
      · simp only [hr, if_true]
        exact ih f
      · simp only [hr, if_false]
        rfl

/-- `validateField` never changes the field value. -/
theorem validateField_value (f : FormsModule.Field) :
    (FormsModule.validateField f).2.value = f.value := by
  rw [FormsModule.validateField]
  rcases f.dataValidate with _ | attr
  · rfl
  · by_cases ha : attr.isEmpty = true
    · simp only [ha, if_true]
    · simp only [ha, if_false]
      exact validateFieldGo_value _ f

/-- The fold inside `validateForm` collects the validated fields in
order. -/
theorem validateForm_foldl (l : List FormsModule.Field) (b : Bool)
    (fs : List FormsModule.Field) :
    (l.foldl (fun (acc : Bool × List FormsModule.Field) fl =>
        (acc.1 && (FormsModule.validateField fl).1,
         acc.2 ++ [(FormsModule.validateField fl).2])) (b, fs)).2 =
      fs ++ l.map (fun fl => (FormsModule.validateField fl).2) := by
  induction l generalizing b fs with
  | nil => simp
  | cons fl l ih =>
    rw [List.foldl_cons, ih]
    simp

/-- `validateForm` keeps every field value. -/
theorem validateForm_values (form : FormsModule.Form) :
    (FormsModule.validateForm form).2.fields.map FormsModule.Field.value =
      form.fields.map FormsModule.Field.value := by
  show (form.fields.foldl _ (true, [])).2.map FormsModule.Field.value = _
  rw [validateForm_foldl]
  simp only [List.nil_append, List.map_map]
  exact List.map_congr_left (fun fl _ => validateField_value fl)

/-- `setFormSubmitting` keeps every field value. -/
theorem setFormSubmitting_values (form : FormsModule.Form) (b : Bool) :
    (FormsModule.setFormSubmitting form b).fields.map FormsModule.Field.value =
      form.fields.map FormsModule.Field.value := by
  show (form.fields.map _).map FormsModule.Field.value = _
  rw [List.map_map]
  rfl

/-- Claim C7: when the dispatched submission rejects, the error is caught
and surfaced as a visible form-level error banner whose text is the
error's message, or the generic fallback when the message is missing or
empty; field values are left untouched (no reset on the error path), and
the in-flight marker is removed. -/
theorem forms_error_path (st : FormsModule.FormsState) (form : FormsModule.Form)
    (errMessage : Option String)
    (hnot : form.id ∉ st.submittingForms)
    (hvalid : (FormsModule.validateForm form).1 = true) :
    ∃ banner : FormsModule.FormMessage,
      (FormsModule.handleFormSubmit st form (.err errMessage)).2.message =
        some banner ∧
      banner.visible = true ∧
      banner.cls = "form-message error" ∧
      (∀ m, errMessage = some m → m ≠ "" → banner.text = m) ∧
      (errMessage = none ∨ errMessage = some "" →
        banner.text = "An error occurred. Please try again.") ∧
      (FormsModule.handleFormSubmit st form (.err errMessage)).2.fields.map
          FormsModule.Field.value = form.fields.map FormsModule.Field.value ∧
      form.id ∉
        (FormsModule.handleFormSubmit st form (.err errMessage)).1.submittingForms := by
  have hstart : FormsModule.handleFormSubmitStart st form =
      .started
        { st with submittingForms := form.id :: st.submittingForms,
                  submitCalls := st.submitCalls ++ [form.id] }
        (FormsModule.setFormSubmitting (FormsModule.validateForm form).2 true) := by
    simp [FormsModule.handleFormSubmitStart, hnot, hvalid]
  refine ⟨{ text := FormsModule.errorBannerText errMessage,
            cls := "form-message error", visible := true }, ?_, rfl, rfl, ?_, ?_, ?_, ?_⟩
  · rw [FormsModule.handleFormSubmit, hstart]
    rfl
  · intro m hm hm0
    have : m.isEmpty = false := by
      rcases h : m.isEmpty with _ | _
      · rfl
      · exact absurd ((String.isEmpty_iff m).mp h) hm0
    simp [FormsModule.errorBannerText, hm, this]
  · rintro (hm | hm) <;> simp [FormsModule.errorBannerText, hm, String.isEmpty_iff]
  · rw [FormsModule.handleFormSubmit, hstart]
    show (FormsModule.setFormSubmitting _ false).fields.map _ = _
    rw [setFormSubmitting_values]
    show (FormsModule.handleFormError _ _).fields.map _ = _
    rw [show ∀ g e, (FormsModule.handleFormError g e).fields = g.fields from
      fun _ _ => rfl]
    rw [setFormSubmitting_values, validateForm_values]
  · rw [FormsModule.handleFormSubmit, hstart]
    show form.id ∉ ((form.id :: st.submittingForms).erase
      (FormsModule.setFormSubmitting (FormsModule.validateForm form).2 true).id)
    rw [show (FormsModule.setFormSubmitting
      (FormsModule.validateForm form).2 true).id = form.id from rfl]
    rw [List.erase_cons_head]
    exact hnot

/-- Witness for C7 at `communityFormW` with a rejected submission whose
error carries the message `"Network request failed"`. -/
theorem forms_error_path_witness :
    ∃ banner : FormsModule.FormMessage,
      (FormsModule.handleFormSubmit formsStateW communityFormW
          (.err (some "Network request failed"))).2.message = some banner ∧
      banner.visible = true ∧
      banner.cls = "form-message error" ∧
      (∀ m, (some "Network request failed" : Option String) = some m → m ≠ "" →
        banner.text = m) ∧
      ((some "Network request failed" : Option String) = none ∨
          (some "Network request failed" : Option String) = some "" →
        banner.text = "An error occurred. Please try again.") ∧
      (FormsModule.handleFormSubmit formsStateW communityFormW
          (.err (some "Network request failed"))).2.fields.map
        FormsModule.Field.value =
        communityFormW.fields.map FormsModule.Field.value ∧
      communityFormW.id ∉
        (FormsModule.handleFormSubmit formsStateW communityFormW
          (.err (some "Network request failed"))).1.submittingForms :=
  forms_error_path formsStateW communityFormW (some "Network request failed")
    (by decide) (by decide)

/-- When no section band contains the probe, the scan keeps its
accumulator. -/
theorem scanFold_no_match (l : List NavigationModule.PageSection) (p : Nat)
    (acc : String)
    (h : ∀ sec ∈ l, NavigationModule.sectionContains sec p = false) :
    l.foldl (fun a sec =>
      if NavigationModule.sectionContains sec p then sec.id else a) acc = acc := by
  induction l generalizing acc with
  | nil => rfl
  | cons T l ih =>
    have hT : ¬ (NavigationModule.sectionContains T p = true) := by
      simp [h T (List.mem_cons_self T l)]
    rw [List.foldl_cons, if_neg hT]
    exact ih acc (fun x hx => h x (List.mem_cons_of_mem T hx))

/-- When the probe lies in a band and every matching section carries the
same id, the scan returns that id whatever the accumulator. -/
theorem scanFold_unique (l : List NavigationModule.PageSection) (p : Nat) :
    ∀ S : NavigationModule.PageSection, ∀ acc : String, S ∈ l →
    NavigationModule.sectionContains S p = true →
    (∀ T ∈ l, NavigationModule.sectionContains T p = true → T.id = S.id) →
    l.foldl (fun a sec =>
      if NavigationModule.sectionContains sec p then sec.id else a) acc = S.id := by
  induction l with
  | nil =>
    intro S acc hS
    exact absurd hS (List.not_mem_nil S)
  | cons T l ih =>
    intro S acc hS hc huniq
    rw [List.foldl_cons]
    by_cases hmtail : ∃ U ∈ l, NavigationModule.sectionContains U p = true
    · obtain ⟨U, hU, hUc⟩ := hmtail
      have hUid : U.id = S.id := huniq U (List.mem_cons_of_mem T hU) hUc
      have hrec := ih U (if NavigationModule.sectionContains T p then T.id else acc)
        hU hUc
        (fun V hV hVc =>
          (huniq V (List.mem_cons_of_mem T hV) hVc).trans hUid.symm)
      rw [hrec]
      exact hUid
    · push_neg at hmtail
      have hzero : ∀ V ∈ l, NavigationModule.sectionContains V p = false := by
        intro V hV
        have hne := hmtail V hV
        exact Bool.not_eq_true _ ▸ hne
      rw [scanFold_no_match l p _ hzero]
      rcases List.mem_cons.mp hS with rfl | hS2
      · rw [if_pos hc]
      · exact absurd hc (by simp [hzero S hS2])

/-- Claim C3 (amended): with the nav links consistent with the stored
active section, a scroll-spy run whose probe `scrollY + sectionOffset + 50`
lies strictly inside the unique section band containing it sets
`activeSection` to that section's id and leaves exactly one nav link with
the active class, that link carrying `aria-current="page"` and every
other link `aria-current="false"`; when no band contains the probe the
active section defaults to `"home"`. -/
theorem nav_scroll_spy (s : NavigationModule.NavState) (scrollY : Nat)
    (hcons : NavigationModule.linksConsistent s) :
    (∀ S : NavigationModule.PageSection, S ∈ s.sections →
      NavigationModule.sectionContains S (scrollY + s.sectionOffset + 50) = true →
      (∀ T ∈ s.sections,
        NavigationModule.sectionContains T (scrollY + s.sectionOffset + 50) = true →
        T.id = S.id) →
      s.navLinks.countP (fun l => l.href == "#" ++ S.id) = 1 →
      (NavigationModule.updateActiveSection s scrollY).activeSection = S.id ∧
      (NavigationModule.updateActiveSection s scrollY).navLinks.countP
        (fun l => l.activeClass) = 1 ∧
      (∀ l ∈ (NavigationModule.updateActiveSection s scrollY).navLinks,
        (l.activeClass = true → l.href = "#" ++ S.id ∧ l.ariaCurrent = some "page") ∧
        (l.activeClass = false → l.ariaCurrent = some "false"))) ∧
    ((∀ T ∈ s.sections,
        NavigationModule.sectionContains T (scrollY + s.sectionOffset + 50) = false) →
      (NavigationModule.updateActiveSection s scrollY).activeSection = "home") := by
  constructor
  · intro S hS hin huniq hone
    have hscan : NavigationModule.scanActive s.sections
        (scrollY + s.sectionOffset + 50) = S.id :=
      scanFold_unique s.sections _ S "home" hS hin huniq
    by_cases hch : S.id ≠ s.activeSection
    · have hupd : NavigationModule.updateActiveSection s scrollY =
          { s with activeSection := S.id,
                   navLinks := NavigationModule.setActiveNavLink s.navLinks
                     ("#" ++ S.id) } := by
        simp only [NavigationModule.updateActiveSection, hscan, hch, ite_true,
          if_pos hch]
      rw [hupd]
      refine ⟨rfl, ?_, ?_⟩
      · show (s.navLinks.map _).countP _ = 1
        rw [List.countP_map]
        exact hone
      · intro l hl
        have hl2 : l ∈ s.navLinks.map (fun x =>
            { x with activeClass := x.href == "#" ++ S.id,
                     ariaCurrent := some (if x.href == "#" ++ S.id then "page"
                       else "false") }) := hl
        obtain ⟨x, _, rfl⟩ := List.mem_map.mp hl2
        constructor
        · intro hact
          have hx : (x.href == "#" ++ S.id) = true := hact
          refine ⟨eq_of_beq hx, ?_⟩
          show some (if x.href == "#" ++ S.id then "page" else "false") = some "page"
          rw [hx]
          rfl
        · intro hact
          have hx : (x.href == "#" ++ S.id) = false := hact
          show some (if x.href == "#" ++ S.id then "page" else "false") = some "false"
          rw [hx]
          rfl
    · rw [not_not] at hch
      have hne : ¬ (NavigationModule.scanActive s.sections
          (scrollY + s.sectionOffset + 50) ≠ s.activeSection) := by
        rw [hscan, hch]
        exact not_not_intro rfl
      have hupd : NavigationModule.updateActiveSection s scrollY = s := by
        simp only [NavigationModule.updateActiveSection]
        rw [if_neg hne]
      rw [hupd]
      refine ⟨hch.symm, ?_, ?_⟩
      · have hpq : ∀ x ∈ s.navLinks,
            x.activeClass = true ↔ (x.href == "#" ++ S.id) = true := by
          intro x hx
          rw [(hcons x hx).1, hch]
        rw [List.countP_congr hpq]
        exact hone
      · intro l hl
        have hc1 := (hcons l hl).1
        have hc2 := (hcons l hl).2
        rw [← hch] at hc1 hc2
        constructor
        · intro hact
          rw [hact] at hc1
          have hx : (l.href == "#" ++ S.id) = true := hc1.symm
          refine ⟨eq_of_beq hx, ?_⟩
          rw [hc2, hx]
          rfl
        · intro hact
          rw [hact] at hc1
          have hx : (l.href == "#" ++ S.id) = false := hc1.symm
          rw [hc2, hx]
          rfl
  · intro hnone
    have hscan : NavigationModule.scanActive s.sections
        (scrollY + s.sectionOffset + 50) = "home" :=
      scanFold_no_match s.sections _ "home" hnone
    by_cases hch : ("home" : String) ≠ s.activeSection
    · have hne : NavigationModule.scanActive s.sections
          (scrollY + s.sectionOffset + 50) ≠ s.activeSection := by
        rw [hscan]
        exact hch
      simp only [NavigationModule.updateActiveSection]
      rw [if_pos hne, hscan]
    · rw [not_not] at hch
      have hne : ¬ (NavigationModule.scanActive s.sections
          (scrollY + s.sectionOffset + 50) ≠ s.activeSection) := by
        rw [hscan]
        exact not_not_intro hch
      simp only [NavigationModule.updateActiveSection]
      rw [if_neg hne]
      exact hch.symm

/-- Witness for the amended C3: at `scrollY = 100` the probe
`100 + 80 + 50 = 230` lies in the `about` band, so `about` becomes active
with exactly one active link; and at a probe beyond all bands the active
section defaults to `home`. -/
theorem nav_scroll_spy_witness :
    ((NavigationModule.updateActiveSection navStateW 100).activeSection = "about" ∧
      (NavigationModule.updateActiveSection navStateW 100).navLinks.countP
        (fun l => l.activeClass) = 1 ∧
      (∀ l ∈ (NavigationModule.updateActiveSection navStateW 100).navLinks,
        (l.activeClass = true → l.href = "#" ++ "about" ∧ l.ariaCurrent = some "page") ∧
        (l.activeClass = false → l.ariaCurrent = some "false"))) ∧
    (NavigationModule.updateActiveSection navStateW 1000).activeSection = "home" :=
  ⟨(nav_scroll_spy navStateW 100 (by decide)).1
      { id := "about", offsetTop := 200, offsetHeight := 200 }
      (by decide) (by decide) (by decide) (by decide),
   (nav_scroll_spy navStateW 1000 (by decide)).2 (by decide)⟩

/-- Counterexample to C3 as stated: at `scrollY = 100`, which lies
strictly inside the `home` band `[0, 200)`, the scroll-spy sets the
active section to `about` (the probe is `scrollY + 80 + 50`), not to
`home`. -/
theorem nav_scroll_spy_cex :
    NavigationModule.sectionContains
      { id := "home", offsetTop := 0, offsetHeight := 200 } 100 = true ∧
    (NavigationModule.updateActiveSection navStateW 100).activeSection ≠ "home" := by
  constructor
  · decide
  · decide

/-- Claim C4 (amended): for `open(id)` called with no modal active, a
following `close()` restores focus to exactly the element that was
`document.activeElement` immediately before `open(id)` — whatever focus
moves happened inside the modal in between — and clears the stored
`previousFocus`; when another modal was active at `open(id)`, the focus
restored is instead the `previousFocus` captured before that modal's own
open (because `open` records `document.activeElement` only after awaiting
the inner `close()`, which has already moved focus). -/
theorem modal_focus_restored (s : ModalsModule.ModalState) (modalId : String)
    (e : ModalsModule.Elem)
    (hAnim : s.isAnimating = false) (hAct : s.activeModal = none)
    (hMem : modalId ∈ s.modalIds) :
    (ModalsModule.closeRun
      { ModalsModule.openRun s modalId with focused := e }).focused = s.focused ∧
    (ModalsModule.closeRun
      { ModalsModule.openRun s modalId with focused := e }).previousFocus = none := by
  have hopen : ModalsModule.openRun s modalId =
      { s with isAnimating := false, activeModal := some modalId,
               previousFocus := some s.focused,
               ariaHidden := fun x => if x = modalId then false else s.ariaHidden x,
               focused := ModalsModule.Elem.modalElem modalId } := by
    simp only [ModalsModule.openRun, ModalsModule.openTrace, hAnim, hAct, hMem,
      Bool.false_eq_true, if_false, not_true_eq_false, ite_false]
    rfl
  rw [hopen]
  constructor
  · rfl
  · rfl

/-- Witness for the amended C4: open the newsletter modal from
`cleanModalState`, move focus to some element inside it, close — focus
returns to node 5 and `previousFocus` is cleared. -/
theorem modal_focus_restored_witness :
    (ModalsModule.closeRun
      { ModalsModule.openRun cleanModalState "newsletter-modal" with
        focused := ModalsModule.Elem.node 9 }).focused = cleanModalState.focused ∧
    (ModalsModule.closeRun
      { ModalsModule.openRun cleanModalState "newsletter-modal" with
        focused := ModalsModule.Elem.node 9 }).previousFocus = none :=
  modal_focus_restored cleanModalState "newsletter-modal"
    (ModalsModule.Elem.node 9) rfl rfl (by decide)

/-- Counterexample to C4 as stated: open the newsletter modal (focus was
node 5, then sits on the modal element), then open the community modal
while the first is still active, then close.  Focus lands on node 5 — yet
immediately before the second `open` the active element was the
newsletter modal element.  So close does not restore the element focused
immediately before the `open` that was closed. -/
theorem modal_focus_restored_cex :
    (ModalsModule.closeRun
        (ModalsModule.openRun (ModalsModule.openRun cleanModalState
          "newsletter-modal") "community-modal")).focused ≠
      (ModalsModule.openRun cleanModalState "newsletter-modal").focused ∧
    (ModalsModule.closeRun
        (ModalsModule.openRun (ModalsModule.openRun cleanModalState
          "newsletter-modal") "community-modal")).focused =
      ModalsModule.Elem.node 5 ∧
    (ModalsModule.openRun cleanModalState "newsletter-modal").focused =
      ModalsModule.Elem.modalElem "newsletter-modal" := by
  refine ⟨?_, rfl, rfl⟩
  intro h
  exact absurd h (by decide)

/-- Claim C1: opening a modal while another is active first runs the
active modal's full close sequence (whose final state — the old modal
hidden, the active slot cleared — appears in the open trace) before the
requested modal becomes visible: in every state of the trace at most one
modal has `aria-hidden="false"`, and wherever the new modal is visible
the old one is hidden. -/
theorem modal_single_active (s : ModalsModule.ModalState) (m newId : String)
    (hInv : ModalsModule.ModalInv s) (hAnim : s.isAnimating = false)
    (hMem : newId ∈ s.modalIds) (hAct : s.activeModal = some m)
    (hNe : m ≠ newId) :
    (∀ t ∈ ModalsModule.openTrace s newId, ModalsModule.atMostOneVisible t) ∧
    (∀ t ∈ ModalsModule.openTrace s newId,
      t.ariaHidden newId = false → t.ariaHidden m = true) ∧
    ModalsModule.closeRun s ∈ ModalsModule.openTrace s newId ∧
    (ModalsModule.closeRun s).ariaHidden m = true ∧
    (ModalsModule.closeRun s).activeModal = none := by
  have hA : ∀ x ∈ s.modalIds, s.ariaHidden x = false → x = m := by
    intro x hx hvx
    have h2 := hInv x hx hvx
    rw [hAct] at h2
    exact (Option.some.inj h2).symm
  have hA1 : ∀ x ∈ s.modalIds,
      (if x = m then true else s.ariaHidden x) = false → False := by
    intro x hx h
    by_cases hxm : x = m
    · rw [if_pos hxm] at h
      exact Bool.noConfusion h
    · rw [if_neg hxm] at h
      exact hxm (hA x hx h)
  have hA2vis : ∀ x ∈ s.modalIds,
      (if x = newId then false
       else if x = m then true else s.ariaHidden x) = false → x = newId := by
    intro x hx h
    by_cases hxn : x = newId
    · exact hxn
    · rw [if_neg hxn] at h
      exact (hA1 x hx h).elim
  have htrace : ModalsModule.openTrace s newId = [s,
      { s with isAnimating := true },
      { s with isAnimating := true,
               ariaHidden := fun x => if x = m then true else s.ariaHidden x },
      { s with isAnimating := true,
               ariaHidden := fun x => if x = m then true else s.ariaHidden x,
               focused := s.previousFocus.getD s.focused },
      { s with isAnimating := false,
               ariaHidden := fun x => if x = m then true else s.ariaHidden x,
               focused := s.previousFocus.getD s.focused,
               activeModal := none, previousFocus := none },
      { s with isAnimating := true,
               ariaHidden := fun x => if x = m then true else s.ariaHidden x,
               focused := s.previousFocus.getD s.focused,
               activeModal := some newId,
               previousFocus := some (s.previousFocus.getD s.focused) },
      { s with isAnimating := true,
               ariaHidden := fun x => if x = newId then false
                 else if x = m then true else s.ariaHidden x,
               focused := s.previousFocus.getD s.focused,
               activeModal := some newId,
               previousFocus := some (s.previousFocus.getD s.focused) },
      { s with isAnimating := true,
               ariaHidden := fun x => if x = newId then false
                 else if x = m then true else s.ariaHidden x,
               focused := ModalsModule.Elem.modalElem newId,
               activeModal := some newId,
               previousFocus := some (s.previousFocus.getD s.focused) },
      { s with isAnimating := false,
               ariaHidden := fun x => if x = newId then false
                 else if x = m then true else s.ariaHidden x,
               focused := ModalsModule.Elem.modalElem newId,
               activeModal := some newId,
               previousFocus := some (s.previousFocus.getD s.focused) }] := by
    simp only [ModalsModule.openTrace, ModalsModule.closeTrace, hAnim, hAct, hMem,
      Bool.false_eq_true, if_false, not_true_eq_false, ite_false]
    rfl
  have hclose : ModalsModule.closeRun s =
      { s with isAnimating := false,
               ariaHidden := fun x => if x = m then true else s.ariaHidden x,
               focused := s.previousFocus.getD s.focused,
               activeModal := none, previousFocus := none } := by
    simp only [ModalsModule.closeRun, ModalsModule.closeTrace, hAnim, hAct,
      Bool.false_eq_true, if_false, not_true_eq_false, ite_false]
    rfl
  refine ⟨?_, ?_, ?_, ?_, ?_⟩
  · intro t ht
    rw [htrace] at ht
    simp only [List.mem_cons, List.not_mem_nil, or_false] at ht
    rcases ht with rfl | rfl | rfl | rfl | rfl | rfl | rfl | rfl | rfl
    · exact fun x hx y hy hvx hvy => (hA x hx hvx).trans (hA y hy hvy).symm
    · exact fun x hx y hy hvx hvy => (hA x hx hvx).trans (hA y hy hvy).symm
    · exact fun x hx y hy hvx hvy => (hA1 x hx hvx).elim
    · exact fun x hx y hy hvx hvy => (hA1 x hx hvx).elim
    · exact fun x hx y hy hvx hvy => (hA1 x hx hvx).elim
    · exact fun x hx y hy hvx hvy => (hA1 x hx hvx).elim
    · exact fun x hx y hy hvx hvy => (hA2vis x hx hvx).trans (hA2vis y hy hvy).symm
    · exact fun x hx y hy hvx hvy => (hA2vis x hx hvx).trans (hA2vis y hy hvy).symm
    · exact fun x hx y hy hvx hvy => (hA2vis x hx hvx).trans (hA2vis y hy hvy).symm
  · intro t ht
    rw [htrace] at ht
    simp only [List.mem_cons, List.not_mem_nil, or_false] at ht
    rcases ht with rfl | rfl | rfl | rfl | rfl | rfl | rfl | rfl | rfl
    · exact fun h => (hNe ((hA newId hMem h).symm)).elim
    · exact fun h => (hNe ((hA newId hMem h).symm)).elim
    · exact fun h => (hA1 newId hMem h).elim
    · exact fun h => (hA1 newId hMem h).elim
    · exact fun h => (hA1 newId hMem h).elim
    · exact fun h => (hA1 newId hMem h).elim
    · intro h
      show (if m = newId then false
        else if m = m then true else s.ariaHidden m) = true
      rw [if_neg hNe, if_pos rfl]
    · intro h
      show (if m = newId then false
        else if m = m then true else s.ariaHidden m) = true
      rw [if_neg hNe, if_pos rfl]
    · intro h
      show (if m = newId then false
        else if m = m then true else s.ariaHidden m) = true
      rw [if_neg hNe, if_pos rfl]
  · rw [htrace, hclose]
    exact List.mem_cons_of_mem _ (List.mem_cons_of_mem _ (List.mem_cons_of_mem _
      (List.mem_cons_of_mem _ (List.mem_cons_self _ _))))
  · rw [hclose]
    show (if m = m then true else s.ariaHidden m) = true
    rw [if_pos rfl]
  · rw [hclose]

/-- Witness for C1: from `modalW` (newsletter modal active and visible),
open the community modal. -/
theorem modal_single_active_witness :
    (∀ t ∈ ModalsModule.openTrace modalW "community-modal",
      ModalsModule.atMostOneVisible t) ∧
    (∀ t ∈ ModalsModule.openTrace modalW "community-modal",
      t.ariaHidden "community-modal" = false →
      t.ariaHidden "newsletter-modal" = true) ∧
    ModalsModule.closeRun modalW ∈ ModalsModule.openTrace modalW "community-modal" ∧
    (ModalsModule.closeRun modalW).ariaHidden "newsletter-modal" = true ∧
    (ModalsModule.closeRun modalW).activeModal = none :=
  modal_single_active modalW "newsletter-modal" "community-modal"
    (by decide) (by decide) (by decide) (by decide) (by decide)
